import Mathlib

/-!
Shallow embedding of the message-storage HTTP service in
src/server/main.rs of solidity-deploy-rs, together with theorems
checking its natural-language specification.

The write handler, the read handler, the event listener and the
mutual-exclusion discipline of the shared contract session are
modelled as Lean functions and relations below; each definition is a
direct translation of the corresponding Rust item.
-/

/-- Errors surfaced by the ethers contract layer: either a contract
revert carrying decoded revert data, or any other error (transport,
connection, serialization). Mirrors what the handlers distinguish via
the error method named as a revert accessor. -/
inductive ContractError where
  | revert (detail : String)
  | other (detail : String)
deriving DecidableEq, Repr

/-- The revert accessor on contract errors: yields the revert detail
exactly when the error is a contract revert, and none otherwise. -/
def ContractError.as_revert : ContractError → Option String
  | .revert d => some d
  | .other _ => none

/-- Debug rendering of a contract error, standing for the Rust debug
format of the whole error value. -/
def ContractError.describe : ContractError → String
  | .revert d => d
  | .other d => d

/-- A transaction receipt; the handler only uses its transaction hash. -/
structure Receipt where
  transaction_hash : String
deriving DecidableEq, Repr

/-- The calls a handler makes on the shared contract client while
holding the session guard. -/
inductive LedgerCall where
  | writeMessageSend (msg : String)
  | awaitConfirmation
  | getMessagesCall
deriving DecidableEq, Repr

/-- JSON values, sufficient for the response bodies the two handlers
produce. -/
inductive Json where
  | str (s : String)
  | arr (elems : List Json)
  | obj (fields : List (String × Json))

/-- Field lookup on a JSON object; none on non-objects. -/
def Json.lookup : Json → String → Option Json
  | .obj fields, k => fields.lookup k
  | _, _ => none

/-- An HTTP response: numeric status code and JSON body. -/
structure HttpResponse where
  status : Nat
  body : Json

/-- Environment of one POST write request: the outcome of sending the
write-message transaction, and — relevant when the send succeeds — the
outcome of awaiting the pending transaction (ok some receipt means
confirmed, ok none means dropped from the mempool, error means the
confirmation wait itself failed). -/
structure WriteLedger where
  send : Except ContractError Unit
  confirm : Except String (Option Receipt)

/-- The store-message handler from src/server/main.rs. It sends the
write-message transaction, awaits confirmation, and classifies the
outcome; every branch wraps its response in ok, mirroring that the
Rust handler returns Ok(HttpResponse...) on all paths. The first
component records the ledger calls performed. -/
def store_message_handler (msg : String) (L : WriteLedger) :
    Except String (List LedgerCall × HttpResponse) :=
  match L.send with
  | .ok _ =>
      match L.confirm with
      | .ok (some receipt) =>
          .ok ([.writeMessageSend msg, .awaitConfirmation],
            { status := 200,
              body := .obj [("status", .str "success"),
                            ("tx_hash", .str receipt.transaction_hash)] })
      | .ok none =>
          .ok ([.writeMessageSend msg, .awaitConfirmation],
            { status := 500,
              body := .obj [("status", .str "error"),
                            ("message", .str "Transaction dropped")] })
      | .error e =>
          .ok ([.writeMessageSend msg, .awaitConfirmation],
            { status := 500,
              body := .obj [("status", .str "error"),
                            ("message",
                             .str ("Transaction confirmation failed: " ++ e))] })
  | .error e =>
      match e.as_revert with
      | some contract_error =>
          .ok ([.writeMessageSend msg],
            { status := 400,
              body := .obj [("status", .str "error"),
                            ("message",
                             .str ("Contract execution failed: " ++ contract_error))] })
      | none =>
          .ok ([.writeMessageSend msg],
            { status := 500,
              body := .obj [("status", .str "error"),
                            ("message",
                             .str ("Failed to send transaction: " ++ e.describe))] })

/-- Environment of one GET read request: the outcome of the
get-messages contract call. -/
structure ReadLedger where
  get_messages : Except ContractError (List String)

/-- The retrieve-messages handler from src/server/main.rs: calls
get-messages and maps success to 200 with the message list, failure to
500 with an error description. Every branch wraps its response in ok. -/
def retrieve_messages_handler (L : ReadLedger) :
    Except String (List LedgerCall × HttpResponse) :=
  match L.get_messages with
  | .ok messages =>
      .ok ([.getMessagesCall],
        { status := 200,
          body := .obj [("messages", .arr (messages.map Json.str))] })
  | .error e =>
      match e.as_revert with
      | some contract_error =>
          .ok ([.getMessagesCall],
            { status := 500,
              body := .obj [("status", .str "error"),
                            ("message",
                             .str ("Contract execution failed during retrieval: "
                                   ++ contract_error))] })
      | none =>
          .ok ([.getMessagesCall],
            { status := 500,
              body := .obj [("status", .str "error"),
                            ("message",
                             .str ("Failed to retrieve messages: " ++ e.describe))] })

/-- Response of the write handler, extracted from its (always ok)
result. -/
def writeResponse (msg : String) (L : WriteLedger) : HttpResponse :=
  match store_message_handler msg L with
  | .ok (_, r) => r
  | .error _ => { status := 0, body := .obj [] }

/-- Ledger-call trace of the write handler. -/
def writeTrace (msg : String) (L : WriteLedger) : List LedgerCall :=
  match store_message_handler msg L with
  | .ok (tr, _) => tr
  | .error _ => []

/-- Ledger-call trace of the read handler. -/
def readTrace (L : ReadLedger) : List LedgerCall :=
  match retrieve_messages_handler L with
  | .ok (tr, _) => tr
  | .error _ => []

/-- Number of write-message submissions in a ledger-call trace. -/
def countSends : List LedgerCall → Nat
  | [] => 0
  | .writeMessageSend _ :: rest => countSends rest + 1
  | _ :: rest => countSends rest

/-- Number of confirmation waits in a ledger-call trace. -/
def countAwaits : List LedgerCall → Nat
  | [] => 0
  | .awaitConfirmation :: rest => countAwaits rest + 1
  | _ :: rest => countAwaits rest

/-- A message-written event as decoded from the contract log: the
stored message and the address of its origin. -/
structure MessageWritten where
  message : String
  sender : String
deriving DecidableEq, Repr

/-- An event filter with its starting block. -/
structure EventFilter where
  fromBlock : Nat
deriving DecidableEq, Repr

/-- The filter the listener builds: the message-written event filter
started from block 0, i.e. the earliest origin of the ledger. -/
def listener_filter : EventFilter := { fromBlock := 0 }

/-- The consumption loop of the spawned listener task: it pulls items
while the next one is present and decodes successfully, logging each
event; it stops at the end of the stream or at the first decode
error. Input items model the stream produced after the take of one
element. -/
def event_loop : List (Except String MessageWritten) → List MessageWritten
  | [] => []
  | .ok e :: rest => e :: event_loop rest
  | .error _ :: _ => []

/-- What the spawned listener task does over its whole lifetime: the
subscription-open failure it logged, if any, and the notifications it
logged. -/
structure ListenerLog where
  openError : Option String
  notifications : List MessageWritten
deriving DecidableEq, Repr

/-- Body of the task spawned by the subscribe function: on a failed
stream open it logs the failure once and returns; on success it takes
one element of the stream and runs the consumption loop on it. -/
def listener_task
    (streamOpen : Except String (List (Except String MessageWritten))) :
    ListenerLog :=
  match streamOpen with
  | .error e => { openError := some e, notifications := [] }
  | .ok items => { openError := none, notifications := event_loop (items.take 1) }

/-- The subscribe function from src/server/main.rs: spawns the
listener task (whose lifetime behaviour is the second component) and
returns ok of unit to its caller unconditionally. -/
def subscribe_to_events
    (streamOpen : Except String (List (Except String MessageWritten))) :
    Except String Unit × ListenerLog :=
  (.ok (), listener_task streamOpen)

/-- Whether the HTTP server is started, as a function of the result the
subscribe call returned during setup: the setup function propagates an
error result with the question-mark operator and main aborts on a setup
error before binding the server, so the server starts exactly when the
subscribe call returned ok. -/
def server_starts (setupSubscribe : Except String Unit) : Bool :=
  match setupSubscribe with
  | .ok _ => true
  | .error _ => false

/-- Atomic actions of a handler task, tagged with a task identifier:
acquiring the shared session guard, releasing it, or performing one
ledger call while holding it. -/
inductive Act where
  | acquire (t : Nat)
  | release (t : Nat)
  | ledger (t : Nat) (c : LedgerCall)
deriving DecidableEq, Repr

/-- The action sequence of one handler invocation: the guard is
acquired at the start of the handler body, the ledger calls happen
while it is held, and it is released when the handler returns. -/
def handlerProg (t : Nat) (ops : List LedgerCall) : List Act :=
  Act.acquire t :: (ops.map (Act.ledger t) ++ [Act.release t])

/-- Interleavings of two action sequences: the trace is an arbitrary
merge preserving the order within each sequence. -/
inductive Interleaves : List Act → List Act → List Act → Prop where
  | nil : Interleaves [] [] []
  | left {a : Act} {xs ys tr : List Act} :
      Interleaves xs ys tr → Interleaves (a :: xs) ys (a :: tr)
  | right {a : Act} {xs ys tr : List Act} :
      Interleaves xs ys tr → Interleaves xs (a :: ys) (a :: tr)

/-- Semantics of the mutex guard: the state is the current holder.
Acquire blocks unless the guard is free, release requires being the
holder, and a ledger call requires holding the guard (the contract is
only reachable through the guarded state). A none result means the
action cannot be taken in that state. -/
def lockStep : Option Nat → Act → Option (Option Nat)
  | none, .acquire t => some (some t)
  | some _, .acquire _ => none
  | some h, .release t => if h = t then some none else none
  | none, .release _ => none
  | s, .ledger t _ => if s = some t then some s else none

/-- A trace is valid from a guard state when every action is enabled
in the state reached before it. -/
def lockValid : Option Nat → List Act → Bool
  | _, [] => true
  | s, a :: tr =>
      match lockStep s a with
      | none => false
      | some s2 => lockValid s2 tr

/-- The four documented response shapes for the write endpoint. -/
inductive ResponseShape where
  | success200
  | dropped500
  | rejected400
  | transport500
deriving DecidableEq, Repr

/-- Modelled from the spec (classification section): the documented
mapping from the outcome of a write attempt to a response shape — a
confirmed receipt is a 200 success, a dropped operation a 500, a
synchronous ledger rejection a 400, and any transport failure (of the
submission or of the confirmation wait) a 500. -/
def spec_classify (L : WriteLedger) : ResponseShape :=
  match L.send with
  | .error e =>
      match e.as_revert with
      | some _ => .rejected400
      | none => .transport500
  | .ok _ =>
      match L.confirm with
      | .ok (some _) => .success200
      | .ok none => .dropped500
      | .error _ => .transport500

/-- The HTTP status code of each documented response shape. -/
def ResponseShape.httpStatus : ResponseShape → Nat
  | .success200 => 200
  | .dropped500 => 500
  | .rejected400 => 400
  | .transport500 => 500

/-- A concrete write environment in which the transaction is sent and
confirmed with a receipt. -/
def receiptLedgerExample : WriteLedger :=
  { send := .ok (), confirm := .ok (some { transaction_hash := "0xabc123" }) }

/-! ### Helper lemmas on interleavings and the guard semantics -/

/-- An interleaving whose left component is empty is the right
component. -/
theorem interleaves_nil_left : ∀ {ys tr : List Act}, Interleaves [] ys tr → tr = ys := by
  intro ys tr h
  induction tr generalizing ys with
  | nil => cases h; rfl
  | cons a tr ih =>
      cases h with
      | right h2 => rw [ih h2]

/-- Sequential composition is one interleaving of two sequences. -/
theorem interleaves_append (xs ys : List Act) : Interleaves xs ys (xs ++ ys) := by
  induction xs with
  | nil =>
      induction ys with
      | nil => exact .nil
      | cons a ys ih => exact .right ih
  | cons a xs ih => exact .left ih

/-- Interleaving is symmetric in its two components. -/
theorem interleaves_symm : ∀ {xs ys tr : List Act},
    Interleaves xs ys tr → Interleaves ys xs tr := by
  intro xs ys tr h
  induction h with
  | nil => exact .nil
  | left _ ih => exact .right ih
  | right _ ih => exact .left ih

/-- While a task holds the guard, the other task is blocked at its
acquire: any valid interleaving runs the holder to completion first. -/
theorem locked_run (t t2 : Nat) :
    ∀ (ops : List LedgerCall) (ys2 tr : List Act),
      Interleaves (List.map (Act.ledger t) ops ++ [Act.release t])
        (Act.acquire t2 :: ys2) tr →
      lockValid (some t) tr = true →
      tr = (List.map (Act.ledger t) ops ++ [Act.release t]) ++ (Act.acquire t2 :: ys2) := by
  intro ops
  induction ops with
  | nil =>
      intro ys2 tr h hv
      simp only [List.map_nil, List.nil_append] at h ⊢
      cases h with
      | left h2 => simp [interleaves_nil_left h2]
      | right h2 => simp [lockValid, lockStep] at hv
  | cons c ops ih =>
      intro ys2 tr h hv
      simp only [List.map_cons, List.cons_append] at h ⊢
      cases h with
      | left h2 =>
          simp only [lockValid, lockStep] at hv
          simp [ih ys2 _ h2 (by simpa using hv)]
      | right h2 => simp [lockValid, lockStep] at hv

/-- Any lock-valid interleaving of two handler invocations is one of
the two sequential orders. -/
theorem valid_interleavings_sequential (t1 t2 : Nat) (ops1 ops2 : List LedgerCall)
    (tr : List Act)
    (hint : Interleaves (handlerProg t1 ops1) (handlerProg t2 ops2) tr)
    (hv : lockValid none tr = true) :
    tr = handlerProg t1 ops1 ++ handlerProg t2 ops2 ∨
      tr = handlerProg t2 ops2 ++ handlerProg t1 ops1 := by
  simp only [handlerProg] at hint
  cases hint with
  | left h2 =>
      left
      simp only [lockValid, lockStep] at hv
      have h3 := locked_run t1 t2 ops1 _ _ h2 (by simpa using hv)
      simp [handlerProg, h3]
  | right h2 =>
      right
      simp only [lockValid, lockStep] at hv
      have h3 := locked_run t2 t1 ops2 _ _ (interleaves_symm h2) (by simpa using hv)
      simp [handlerProg, h3]

/-! ### Claim theorems -/

/-- C1: classification completeness of the write handler. For every
request the handler returns ok (no uncaught failure), its status code
is exactly the one the documented classification assigns to the
outcome, and the status classes characterize the outcomes: 200
exactly on a confirmed receipt, 400 exactly on a synchronous ledger
rejection, 500 exactly on a dropped operation or a transport failure.
No outcome is silently dropped: the classification is a total
function of the outcome. -/
theorem write_outcome_classification (msg : String) (L : WriteLedger) :
    ∃ tr resp, store_message_handler msg L = .ok (tr, resp) ∧
      resp.status = (spec_classify L).httpStatus ∧
      (resp.status = 200 ↔ spec_classify L = .success200) ∧
      (resp.status = 400 ↔ spec_classify L = .rejected400) ∧
      (resp.status = 500 ↔
        (spec_classify L = .dropped500 ∨ spec_classify L = .transport500)) := by
  obtain ⟨s0, c⟩ := L
  cases s0 with
  | ok u =>
      cases c with
      | ok o =>
          cases o with
          | none =>
              exact ⟨_, _, rfl, by simp [spec_classify, ResponseShape.httpStatus]⟩
          | some r =>
              exact ⟨_, _, rfl, by simp [spec_classify, ResponseShape.httpStatus]⟩
      | error e2 =>
          exact ⟨_, _, rfl, by simp [spec_classify, ResponseShape.httpStatus]⟩
  | error e0 =>
      cases e0 with
      | revert d =>
          exact ⟨_, _, rfl, by simp [spec_classify, ResponseShape.httpStatus,
            ContractError.as_revert]⟩
      | other d =>
          exact ⟨_, _, rfl, by simp [spec_classify, ResponseShape.httpStatus,
            ContractError.as_revert]⟩

/-- C2: when the ledger synchronously rejects the submission with a
revert before pooling it, the write handler answers 400 and the
message field of the body contains the rejection detail. -/
theorem rejected_write_returns_400 (msg d : String) (L : WriteLedger)
    (hs : L.send = Except.error (ContractError.revert d)) :
    (writeResponse msg L).status = 400 ∧
    (writeResponse msg L).body =
      .obj [("status", .str "error"),
            ("message", .str ("Contract execution failed: " ++ d))] ∧
    ∃ s, "Contract execution failed: " ++ d = s ++ d := by
  obtain ⟨s0, c⟩ := L
  obtain rfl : s0 = Except.error (ContractError.revert d) := hs
  exact ⟨rfl, rfl, "Contract execution failed: ", rfl⟩

/-- Witness for C2: the rejection environment with detail boom yields
a 400 whose message carries the detail. -/
theorem rejected_write_returns_400_witness :
    ({ send := Except.error (ContractError.revert "boom"), confirm := .ok none } :
        WriteLedger).send = Except.error (ContractError.revert "boom") ∧
      ((writeResponse "hello"
          { send := Except.error (ContractError.revert "boom"), confirm := .ok none }).status = 400 ∧
        (writeResponse "hello"
          { send := Except.error (ContractError.revert "boom"), confirm := .ok none }).body =
          .obj [("status", .str "error"),
                ("message", .str ("Contract execution failed: " ++ "boom"))] ∧
        ∃ s, "Contract execution failed: " ++ "boom" = s ++ "boom") :=
  ⟨rfl, rejected_write_returns_400 "hello" "boom" _ rfl⟩

/-- C3: a write whose confirmation wait reports the transaction was
dropped from the mempool yields a 500 with the fixed body saying the
transaction was dropped, and that message differs from every message
the transport-failure branch can produce. -/
theorem dropped_write_returns_500 (msg : String) (L : WriteLedger)
    (hs : L.send = .ok ()) (hc : L.confirm = .ok none) :
    (writeResponse msg L).status = 500 ∧
    (writeResponse msg L).body =
      .obj [("status", .str "error"), ("message", .str "Transaction dropped")] ∧
    ∀ e : String, "Transaction dropped" ≠ "Transaction confirmation failed: " ++ e := by
  obtain ⟨s0, c⟩ := L
  obtain rfl : s0 = Except.ok () := hs
  obtain rfl : c = Except.ok none := hc
  refine ⟨rfl, rfl, ?_⟩
  intro e h
  have h19 : ("Transaction dropped").length = 19 := rfl
  have h33 : ("Transaction confirmation failed: ").length = 33 := rfl
  rw [h, String.length_append, h33] at h19
  omega

/-- Witness for C3: the dropped environment yields the 500 dropped
body, distinct from all transport-failure messages. -/
theorem dropped_write_returns_500_witness :
    ({ send := .ok (), confirm := .ok none } : WriteLedger).send = .ok () ∧
      ({ send := .ok (), confirm := .ok none } : WriteLedger).confirm = .ok none ∧
      ((writeResponse "hello" { send := .ok (), confirm := .ok none }).status = 500 ∧
        (writeResponse "hello" { send := .ok (), confirm := .ok none }).body =
          .obj [("status", .str "error"), ("message", .str "Transaction dropped")] ∧
        ∀ e : String, "Transaction dropped" ≠ "Transaction confirmation failed: " ++ e) :=
  ⟨rfl, rfl, dropped_write_returns_500 "hello" _ rfl rfl⟩

/-- C4 counterexample: on a confirmed write the handler does answer
200 with a success status, but the body carries the receipt identifier
under the key tx_hash; there is no receiptId key, refuting the
documented body shape at a concrete confirmed request. -/
theorem success_body_lacks_receiptId_key :
    (writeResponse "hello" receiptLedgerExample).status = 200 ∧
    (writeResponse "hello" receiptLedgerExample).body.lookup "receiptId" = none ∧
    (writeResponse "hello" receiptLedgerExample).body.lookup "tx_hash" =
      some (.str "0xabc123") :=
  ⟨rfl, rfl, rfl⟩

/-- C4 (amended): when a write is confirmed with a receipt, the
handler returns 200 with a JSON body whose status field is success and
whose tx_hash field holds the transaction hash of the receipt. -/
theorem confirmed_write_returns_200_with_tx_hash (msg : String) (L : WriteLedger)
    (r : Receipt) (hs : L.send = .ok ()) (hc : L.confirm = .ok (some r)) :
    (writeResponse msg L).status = 200 ∧
    (writeResponse msg L).body =
      .obj [("status", .str "success"), ("tx_hash", .str r.transaction_hash)] := by
  obtain ⟨s0, c⟩ := L
  obtain rfl : s0 = Except.ok () := hs
  obtain rfl : c = Except.ok (some r) := hc
  exact ⟨rfl, rfl⟩

/-- Witness for the amended C4 at a concrete confirmed request. -/
theorem confirmed_write_returns_200_with_tx_hash_witness :
    receiptLedgerExample.send = .ok () ∧
      receiptLedgerExample.confirm = .ok (some { transaction_hash := "0xabc123" }) ∧
      ((writeResponse "msg1" receiptLedgerExample).status = 200 ∧
        (writeResponse "msg1" receiptLedgerExample).body =
          .obj [("status", .str "success"), ("tx_hash", .str "0xabc123")]) :=
  ⟨rfl, rfl, confirmed_write_returns_200_with_tx_hash "msg1" receiptLedgerExample
    { transaction_hash := "0xabc123" } rfl rfl⟩

/-- C5: the session guard serializes the handlers. The action sequence
of every handler acquires the guard first, performs its ledger calls
while holding it, and releases it on return; for two handler tasks
with distinct identifiers, every guard-valid interleaving of their
action sequences is one of the two sequential orders, so their ledger
calls never overlap. -/
theorem handlers_fully_serialized (t1 t2 : Nat) (ops1 ops2 : List LedgerCall)
    (tr : List Act)
    (_h1 : (∃ msg L, ops1 = writeTrace msg L) ∨ ∃ R, ops1 = readTrace R)
    (_h2 : (∃ msg L, ops2 = writeTrace msg L) ∨ ∃ R, ops2 = readTrace R)
    (_hne : t1 ≠ t2)
    (hint : Interleaves (handlerProg t1 ops1) (handlerProg t2 ops2) tr)
    (hv : lockValid none tr = true) :
    tr = handlerProg t1 ops1 ++ handlerProg t2 ops2 ∨
      tr = handlerProg t2 ops2 ++ handlerProg t1 ops1 :=
  valid_interleavings_sequential t1 t2 ops1 ops2 tr hint hv

/-- Witness for C5: two concrete write invocations on tasks 1 and 2,
with the sequential trace as the interleaving. -/
theorem handlers_fully_serialized_witness :
    handlerProg 1 (writeTrace "a" receiptLedgerExample) ++
          handlerProg 2 (writeTrace "b" receiptLedgerExample) =
        handlerProg 1 (writeTrace "a" receiptLedgerExample) ++
          handlerProg 2 (writeTrace "b" receiptLedgerExample) ∨
      handlerProg 1 (writeTrace "a" receiptLedgerExample) ++
          handlerProg 2 (writeTrace "b" receiptLedgerExample) =
        handlerProg 2 (writeTrace "b" receiptLedgerExample) ++
          handlerProg 1 (writeTrace "a" receiptLedgerExample) :=
  handlers_fully_serialized 1 2 (writeTrace "a" receiptLedgerExample)
    (writeTrace "b" receiptLedgerExample) _
    (Or.inl ⟨"a", receiptLedgerExample, rfl⟩)
    (Or.inl ⟨"b", receiptLedgerExample, rfl⟩)
    (by simp)
    (interleaves_append _ _)
    rfl

/-- C6: the listener opens its subscription from block 0, the earliest
origin of the ledger, logs the observed notification, and its
consumption is bounded to the first stream item: the task behaves
identically whatever follows the first item, and never logs more than
one notification over its lifetime. -/
theorem listener_consumes_only_first (e : MessageWritten)
    (rest : List (Except String MessageWritten)) :
    listener_filter.fromBlock = 0 ∧
    listener_task (.ok (.ok e :: rest)) =
      { openError := none, notifications := [e] } ∧
    (∀ x rest2, listener_task (.ok (x :: rest2)) = listener_task (.ok [x])) ∧
    (∀ items, (listener_task (.ok items)).notifications.length ≤ 1) := by
  refine ⟨rfl, rfl, fun x rest2 => rfl, ?_⟩
  intro items
  cases items with
  | nil => simp [listener_task, event_loop]
  | cons x rest2 =>
      cases x with
      | ok e2 => simp [listener_task, event_loop]
      | error err => simp [listener_task, event_loop]

/-- C7: when opening the event stream fails, the spawned listener task
logs exactly that failure and nothing else, the subscribe call still
returns ok to its caller, and the HTTP service therefore starts and
keeps serving requests. -/
theorem open_failure_logged_service_continues (e : String) :
    subscribe_to_events (.error e) =
      (.ok (), { openError := some e, notifications := [] }) ∧
    server_starts (subscribe_to_events (.error e)).fst = true :=
  ⟨rfl, rfl⟩

/-- C8: the read handler maps a successful ledger read to 200 with
the full message sequence in ledger order, and any read failure to
500 with an error body that carries no messages field at all. -/
theorem read_success_and_failure_mapping (L : ReadLedger) :
    ∃ resp, retrieve_messages_handler L = .ok ([.getMessagesCall], resp) ∧
      ((∃ msgs, L.get_messages = .ok msgs ∧ resp.status = 200 ∧
          resp.body = .obj [("messages", .arr (msgs.map Json.str))]) ∨
        (∃ e, L.get_messages = .error e ∧ resp.status = 500 ∧
          resp.body.lookup "messages" = none ∧
          resp.body.lookup "status" = some (.str "error"))) := by
  obtain ⟨g⟩ := L
  cases g with
  | ok msgs => exact ⟨_, rfl, .inl ⟨msgs, rfl, rfl, rfl⟩⟩
  | error e =>
      cases e with
      | revert d => exact ⟨_, rfl, .inr ⟨_, rfl, rfl, rfl, rfl⟩⟩
      | other d => exact ⟨_, rfl, .inr ⟨_, rfl, rfl, rfl, rfl⟩⟩

/-- C9: each accepted write request performs exactly one ledger
submission and at most one confirmation wait, on every outcome: the
handler never retries. -/
theorem write_submits_exactly_once (msg : String) (L : WriteLedger) :
    countSends (writeTrace msg L) = 1 ∧ countAwaits (writeTrace msg L) ≤ 1 := by
  obtain ⟨s0, c⟩ := L
  cases s0 with
  | ok u =>
      cases c with
      | ok o =>
          cases o with
          | none => exact ⟨rfl, Nat.le_refl 1⟩
          | some r => exact ⟨rfl, Nat.le_refl 1⟩
      | error e2 => exact ⟨rfl, Nat.le_refl 1⟩
  | error e0 =>
      cases e0 with
      | revert d => exact ⟨rfl, Nat.le_succ 0⟩
      | other d => exact ⟨rfl, Nat.le_succ 0⟩

/-- C10: the subscribe function returns ok of unit to its caller
unconditionally: a failure to open the subscription happens inside the
spawned task and is never observable through the return value, so
startup cannot detect a failed listener. -/
theorem subscribe_returns_ok_unconditionally
    (streamOpen : Except String (List (Except String MessageWritten))) :
    (subscribe_to_events streamOpen).fst = .ok () :=
  rfl
